import Mathlib

/-!
Verification of `benchexec/check_cgroups.py`: a shallow embedding of the
cgroup availability check, its line filtering, its placement comparison
loop, the thread-isolation wrapper, and the command-line surface, together
with theorems settling the specification claims.

External collaborators (the cgroup snapshot provider, the probe executor,
`util.parse_int_list`, the `find_my_cgroups` placement extractor) are not
part of the analysed source; they appear either as parameters or as
definitions explicitly modelled from the specification.
-/

namespace CheckCgroups

/-- The four cgroup subsystems of interest (`CPUACCT`, `CPUSET`, `FREEZER`,
`MEMORY` imported from `benchexec.cgroups`). -/
inductive Subsystem : Type where
  | cpuacct : Subsystem
  | cpuset : Subsystem
  | freezer : Subsystem
  | memory : Subsystem
deriving DecidableEq, Repr

/-- The subsystem name constants as they appear in cgroup records. -/
def Subsystem.name : Subsystem → String
  | .cpuacct => "cpuacct"
  | .cpuset => "cpuset"
  | .freezer => "freezer"
  | .memory => "memory"

/-- A cgroup snapshot: for each subsystem, the absolute cgroup path if the
subsystem is present, `none` if that controller is unavailable.  This is the
read-only view of `runexecutor.cgroups` used by the check. -/
def CgroupSnapshot : Type := Subsystem → Option String

/-- A placement result: where the probe process actually ended up, per
subsystem; `none` when no cgroup record was found for that subsystem. -/
def PlacementResult : Type := Subsystem → Option String

/-- Python `A.startswith(P)` on strings: `P` is a character-sequence prefix
of `A`. -/
def pyStartsWith (a p : String) : Bool :=
  p.data.isPrefixOf a.data

/-- Python `s.strip()`: remove leading and trailing whitespace. -/
def pyStrip (s : String) : String :=
  String.mk
    (((s.data.dropWhile Char.isWhitespace).reverse.dropWhile
        Char.isWhitespace).reverse)

/-- Python `os.path.join a b` for the shapes used here: an absolute `b`
replaces `a`; otherwise the parts are glued with a single `/` separator
unless `a` is empty or already ends with one. -/
def osPathJoin (a b : String) : String :=
  if pyStartsWith b "/" then b
  else if a = "" then b
  else if a.data.getLast? = some '/' then a ++ b
  else a ++ "/" ++ b

/-- The expected cgroup-path prefix for a subsystem the caller owns at
`own`: `os.path.join(my_cgroups[subsystem], "benchmark_")` (line 68). -/
def expectedPrefix (own : String) : String :=
  osPathJoin own "benchmark_"

/-- The literal shell command echoed into the probe output, compared against
on line 58: `sh -c 'sleep {wait}; cat /proc/self/cgroup'`. -/
def echoedCommand (wait : Int) : String :=
  "sh -c 'sleep " ++ toString wait ++ "; cat /proc/self/cgroup'"

/-- The keep-test of the capture filter (lines 56-60), applied to an
already-stripped line: nonempty, not the echoed command, not all dashes. -/
def keepStripped (wait : Int) (l : String) : Bool :=
  !(l = "") && !(l = echoedCommand wait) && !(l.data.all (fun c => c = '-'))

/-- The capture filter loop (lines 53-61): each raw line is stripped of
surrounding whitespace, and the stripped line is appended when it passes
the keep-test. -/
def filterLines (wait : Int) (lines : List String) : List String :=
  lines.foldl
    (fun acc raw =>
      if keepStripped wait (pyStrip raw) then acc ++ [pyStrip raw] else acc)
    []

/-- Whether the comparison loop (lines 65-78) records a deviation for a
subsystem.  A subsystem absent from the caller's own snapshot is skipped.
For a present subsystem with an extracted placement path, the test is the
source's `startswith` check against the expected prefix.  The `none`
placement branch is modelled from the spec: an indeterminate placement
counts as a deviation for the required subsystems and is tolerated for the
optional `freezer` subsystem (the indexing behaviour of the external
`Cgroup` object is not part of the analysed source). -/
def deviates (my : CgroupSnapshot) (task : PlacementResult)
    (s : Subsystem) : Bool :=
  match my s with
  | none => false
  | some own =>
    match task s with
    | some actual => !(pyStartsWith actual (expectedPrefix own))
    | none => decide (s ≠ Subsystem.freezer)

/-- The iteration order of the comparison loop on line 65. -/
def checkOrder : List Subsystem :=
  [Subsystem.cpuacct, Subsystem.cpuset, Subsystem.memory, Subsystem.freezer]

/-- The comparison loop of lines 64-78: walks all four subsystems in order,
appending each deviating subsystem to the warning record and raising the
`fail` flag. -/
def comparisonLoop (my : CgroupSnapshot) (task : PlacementResult) :
    List Subsystem × Bool :=
  checkOrder.foldl
    (fun acc s =>
      if deviates my task s then (acc.1 ++ [s], true) else acc)
    ([], false)

/-- The outcome of one invocation of the check: whether the probe was
executed, which subsystems were reported as deviating, and the process exit
code (`none` means the function returned normally). -/
structure CheckResult : Type where
  probeRun : Bool
  deviations : List Subsystem
  exitCode : Option Nat
deriving DecidableEq, Repr

/-- The comparison phase of `check_cgroup_availability` (lines 64-80):
collect all deviations, then `sys.exit(1)` exactly when the fail flag was
raised. -/
def comparePhase (my : CgroupSnapshot) (task : PlacementResult) :
    CheckResult :=
  let r := comparisonLoop my task
  { probeRun := true
    deviations := r.1
    exitCode := if r.2 then some 1 else none }

/-- The required-subsystem availability test of lines 36-41: `CPUACCT`,
`CPUSET` and `MEMORY` must all be present; `FREEZER` is not required. -/
def requiredPresent (my : CgroupSnapshot) : Bool :=
  (my Subsystem.cpuacct).isSome && (my Subsystem.cpuset).isSome
    && (my Subsystem.memory).isSome

/-- The probe specification handed to `runexecutor.execute_run`
(lines 45-52): command, capture file, memory limit, CPU cores, memory
nodes. -/
structure ProbeSpec : Type where
  args : List String
  outputFile : String
  memlimit : Nat
  cores : List Nat
  memoryNodes : List Nat
deriving DecidableEq, Repr

/-- The environment read from the external cgroup snapshot provider: the
snapshot itself, the raw attribute reader `get_value`, and
`read_allowed_memory_banks`. -/
structure CgroupEnv : Type where
  snapshot : CgroupSnapshot
  getValue : Subsystem → String → String
  allowedMemoryBanks : List Nat

/-- Construction of the probe specification (lines 45-52): a shell command
that sleeps `wait` seconds and prints `/proc/self/cgroup`, a 1 MiB memory
limit, cores parsed from the `cpus` attribute of the caller's own cpuset
cgroup by the external `util.parse_int_list`, and the caller's allowed
memory banks. -/
def buildProbeSpec (wait : Int) (parseIntList : String → List Nat)
    (env : CgroupEnv) (tmpName : String) : ProbeSpec :=
  { args := ["sh", "-c",
      "sleep " ++ toString wait ++ "; cat /proc/self/cgroup"]
    outputFile := tmpName
    memlimit := 1024 * 1024
    cores := parseIntList (env.getValue Subsystem.cpuset "cpus")
    memoryNodes := env.allowedMemoryBanks }

/-- Split a character list at every occurrence of `c`, Python
`str.split` style: the result always has one more group than there are
separators. -/
def splitOnChar (c : Char) : List Char → List (List Char)
  | [] => [[]]
  | x :: xs =>
    match splitOnChar c xs with
    | [] => [[]]
    | g :: gs => if x = c then [] :: g :: gs else (x :: g) :: gs

/-- Modelled from the spec: one probe output line in the kernel-standard
`id:subsystem-name:path` convention; returns the subsystem-name field
(split on commas, as controller lists are comma-separated) and the path
field.  The real parser lives in `benchexec.cgroups`, outside the analysed
source. -/
def parseCgroupLine (line : String) : Option (List String × String) :=
  match splitOnChar ':' line.data with
  | _ :: names :: rest =>
    if rest.isEmpty then none
    else some ((splitOnChar ',' names).map String.mk,
      String.mk (List.intercalate [':'] rest))
  | _ => none

/-- Modelled from the spec: the path a single line reports for subsystem
`s`, if that line is the introspection record of `s`. -/
def lineRecord (s : Subsystem) (line : String) : Option String :=
  match parseCgroupLine line with
  | some r => if s.name ∈ r.1 then some r.2 else none
  | none => none

/-- Modelled from the spec: the placement extractor `find_my_cgroups`
(external to the analysed source).  For each subsystem of interest it scans
the lines for the first matching introspection record and takes its path
verbatim; a subsystem with no matching record is absent from the result. -/
def find_my_cgroups (lines : List String) : PlacementResult :=
  fun s => lines.findSome? (lineRecord s)

/-- `check_cgroup_availability` (lines 22-80), with the probe executor as a
function from the probe specification to the captured output lines: require
the three mandatory subsystems, build and run the probe, filter the
captured lines, extract the probe's placement, and compare it against the
caller's own snapshot. -/
def check_cgroup_availability (wait : Int)
    (parseIntList : String → List Nat) (env : CgroupEnv) (tmpName : String)
    (exec : ProbeSpec → List String) : CheckResult :=
  if requiredPresent env.snapshot then
    let spec := buildProbeSpec wait parseIntList env tmpName
    let lines := filterLines wait (exec spec)
    comparePhase env.snapshot (find_my_cgroups lines)
  else
    { probeRun := false, deviations := [], exitCode := some 1 }

/-- A Python `BaseException` as far as this module distinguishes them:
`SystemExit` with its status (raised by `sys.exit`), `KeyboardInterrupt`,
or any other exception identified by a payload. -/
inductive PyBaseException : Type where
  | systemExit (code : Nat) : PyBaseException
  | keyboardInterrupt : PyBaseException
  | other (payload : String) : PyBaseException
deriving DecidableEq, Repr

/-- The exceptional view of a check outcome: `sys.exit(1)` surfaces as a
raised `SystemExit 1`, a normal return as `ok`. -/
def CheckResult.toExcept (r : CheckResult) : Except PyBaseException Unit :=
  match r.exitCode with
  | some c => Except.error (PyBaseException.systemExit c)
  | none => Except.ok ()

/-- The body of `_CheckCgroupsThread.run` (lines 105-109): run the check
body, catch any `BaseException`, and leave it in the thread's `error` slot
(`none` when the body returned normally). -/
def threadErrorSlot (body : Except PyBaseException Unit) :
    Option PyBaseException :=
  match body with
  | Except.ok _ => none
  | Except.error e => some e

/-- `check_cgroup_availability_in_thread` (lines 83-95): start the single
worker, join it, and re-raise the stored error if there is one. -/
def check_cgroup_availability_in_thread
    (body : Except PyBaseException Unit) : Except PyBaseException Unit :=
  match threadErrorSlot body with
  | some e => Except.error e
  | none => Except.ok ()

/-- The options object produced by the argument parser in `main`. -/
structure Options : Type where
  wait : Int
  noThread : Bool
deriving DecidableEq, Repr

/-- The numeric value of a run of decimal digit characters. -/
def digitsToNat (l : List Char) : Nat :=
  l.foldl (fun n c => 10 * n + (c.toNat - Char.toNat '0')) 0

/-- Python `int(s)` restricted to the shapes relevant here: an optional
sign followed by a nonempty run of decimal digits. -/
def pyInt (s : String) : Option Int :=
  match s.data with
  | '-' :: ds =>
    if ds ≠ [] ∧ ds.all Char.isDigit then
      some (-(Int.ofNat (digitsToNat ds)))
    else none
  | '+' :: ds =>
    if ds ≠ [] ∧ ds.all Char.isDigit then
      some (Int.ofNat (digitsToNat ds))
    else none
  | ds =>
    if ds ≠ [] ∧ ds.all Char.isDigit then
      some (Int.ofNat (digitsToNat ds))
    else none

/-- The argument parser declared in `main` (lines 119-138), modelled over
the documented `argparse` semantics: `--wait SECONDS` converts its value
with `int` (default 1) and `--no-thread` stores true; anything else is a
parse error.  `argparse` applies no sign restriction, so negative values
are accepted. -/
def parseArgsFrom (opts : Options) : List String → Option Options
  | [] => some opts
  | "--no-thread" :: rest =>
    parseArgsFrom { opts with noThread := true } rest
  | "--wait" :: v :: rest =>
    match pyInt v with
    | some n => parseArgsFrom { opts with wait := n } rest
    | none => none
  | _ => none

/-- Parse a full option list starting from the defaults `wait = 1`,
`no_thread = False`. -/
def parseArgs (args : List String) : Option Options :=
  parseArgsFrom { wait := 1, noThread := false } args

/-- The wait value `main` (lines 112-143) hands to
`check_cgroup_availability`, in both the direct and the threaded branch:
the parsed `options.wait`, for argument vector `argv` (of which `argv[0]`
is the program name). -/
def mainInvokedWait (argv : List String) : Option Int :=
  (parseArgs argv.tail).map Options.wait

/-- A subsystem is offending when it is present in the caller's own
snapshot and the extracted placement path exists but does not start with
the expected `benchmark_` prefix. -/
def offending (my : CgroupSnapshot) (task : PlacementResult)
    (s : Subsystem) : Bool :=
  match my s, task s with
  | some own, some a => !(pyStartsWith a (expectedPrefix own))
  | _, _ => false

/-- A trivial stand-in for the external `util.parse_int_list`. -/
def pil0 : String → List Nat := fun _ => []

/-- A probe executor producing no output, for concrete instantiations. -/
def exec0 : ProbeSpec → List String := fun _ => []

/-- Wrap a snapshot into a full environment with trivial attribute data. -/
def envOf (snap : CgroupSnapshot) : CgroupEnv :=
  { snapshot := snap, getValue := fun _ _ => "", allowedMemoryBanks := [] }

/-- Sample snapshot: every subsystem lives at `/a`. -/
def snapAll : CgroupSnapshot := fun _ => some "/a"

/-- Sample snapshot with the memory subsystem missing. -/
def snapNoMemory : CgroupSnapshot :=
  fun s => if s = Subsystem.memory then none else some "/a"

/-- Sample snapshot with only the freezer subsystem missing. -/
def snapNoFreezer : CgroupSnapshot :=
  fun s => if s = Subsystem.freezer then none else some "/a"

/-- Sample placement: every subsystem landed in the expected sub-cgroup. -/
def taskGood : PlacementResult := fun _ => some "/a/benchmark_1/x"

/-- Sample placement where only the cpuacct subsystem was relocated. -/
def taskBadCpuacct : PlacementResult :=
  fun s =>
    if s = Subsystem.cpuacct then some "/other/1"
    else some "/a/benchmark_1/x"

/-- The warning-collecting fold of the comparison loop accumulates exactly
the filtered list, and its flag is the disjunction over the list. -/
theorem foldl_collect {α : Type} (p : α → Bool) (l : List α) :
    ∀ (acc : List α) (f : Bool),
      l.foldl (fun a s => if p s then (a.1 ++ [s], true) else a) (acc, f)
        = (acc ++ l.filter p, f || l.any p) := by
  induction l with
  | nil => intro acc f; simp
  | cons x xs ih =>
    intro acc f
    by_cases h : p x
    · simp [List.foldl_cons, h, ih, List.filter_cons, List.any_cons]
    · simp [List.foldl_cons, h, ih, List.filter_cons, List.any_cons]

/-- The comparison loop computes the filtered deviation list and the
existence flag. -/
theorem comparisonLoop_eq (my : CgroupSnapshot) (task : PlacementResult) :
    comparisonLoop my task =
      (checkOrder.filter (deviates my task),
        checkOrder.any (deviates my task)) := by
  unfold comparisonLoop
  rw [foldl_collect]
  simp

/-- The deviation record of the comparison phase. -/
theorem comparePhase_deviations (my : CgroupSnapshot)
    (task : PlacementResult) :
    (comparePhase my task).deviations =
      checkOrder.filter (deviates my task) := by
  simp [comparePhase, comparisonLoop_eq]

/-- The exit behaviour of the comparison phase. -/
theorem comparePhase_exitCode (my : CgroupSnapshot)
    (task : PlacementResult) :
    (comparePhase my task).exitCode =
      if checkOrder.any (deviates my task) then some 1 else none := by
  simp [comparePhase, comparisonLoop_eq]

/-- Every subsystem is visited by the comparison loop. -/
theorem mem_checkOrder (s : Subsystem) : s ∈ checkOrder := by
  cases s <;> decide

/-- Membership in the recorded deviations is exactly the deviation test. -/
theorem mem_deviations_iff (my : CgroupSnapshot) (task : PlacementResult)
    (s : Subsystem) :
    s ∈ (comparePhase my task).deviations ↔ deviates my task s = true := by
  rw [comparePhase_deviations, List.mem_filter]
  simp [mem_checkOrder]

/-- The comparison phase returns normally exactly when its deviation
record is empty. -/
theorem comparePhase_exit_none_iff (my : CgroupSnapshot)
    (task : PlacementResult) :
    (comparePhase my task).exitCode = none ↔
      (comparePhase my task).deviations = [] := by
  rw [comparePhase_exitCode, comparePhase_deviations]
  by_cases h : checkOrder.any (deviates my task)
  · simp only [h, if_true]
    obtain ⟨s, hs, hd⟩ := List.any_eq_true.mp h
    constructor
    · intro hc; exact absurd hc (by simp)
    · intro hc
      have : s ∈ checkOrder.filter (deviates my task) :=
        List.mem_filter.mpr ⟨hs, hd⟩
      rw [hc] at this
      exact absurd this (List.not_mem_nil s)
  · simp only [h, if_false]
    have : checkOrder.filter (deviates my task) = [] := by
      rw [List.filter_eq_nil_iff]
      intro a ha
      intro hpa
      exact h (List.any_eq_true.mpr ⟨a, ha, hpa⟩)
    simp [this]

/-- The capture-filter fold appends the stripped survivors to its
accumulator. -/
theorem filterLines_foldl (wait : Int) (l : List String) :
    ∀ acc : List String,
      l.foldl
        (fun acc raw =>
          if keepStripped wait (pyStrip raw) then acc ++ [pyStrip raw]
          else acc)
        acc
        = acc ++ (l.map pyStrip).filter (keepStripped wait) := by
  induction l with
  | nil => intro acc; simp
  | cons x xs ih =>
    intro acc
    by_cases h : keepStripped wait (pyStrip x)
    · simp [List.foldl_cons, h, ih, List.filter_cons]
    · simp [List.foldl_cons, h, ih, List.filter_cons]

/-- The capture filter keeps the stripped survivors in order. -/
theorem filterLines_eq (wait : Int) (lines : List String) :
    filterLines wait lines =
      (lines.map pyStrip).filter (keepStripped wait) := by
  unfold filterLines
  rw [filterLines_foldl]
  simp

/-- Character-sequence prefix as an explicit decomposition. -/
theorem charPrefix_iff (p l : List Char) :
    p.isPrefixOf l = true ↔ ∃ t, l = p ++ t := by
  induction p generalizing l with
  | nil => simp [List.isPrefixOf]
  | cons c cs ih =>
    cases l with
    | nil => simp [List.isPrefixOf]
    | cons d ds =>
      simp only [List.isPrefixOf, Bool.and_eq_true, beq_iff_eq, ih,
        List.cons_append, List.cons.injEq]
      constructor
      · rintro ⟨rfl, t, rfl⟩; exact ⟨t, rfl, rfl⟩
      · rintro ⟨t, rfl, rfl⟩; exact ⟨rfl, t, rfl⟩

/-- The isolation wrapper hands back exactly the body's outcome. -/
theorem thread_roundtrip (body : Except PyBaseException Unit) :
    check_cgroup_availability_in_thread body = body := by
  cases body with
  | ok u => cases u; rfl
  | error e => rfl

/-- Claim C1: over any own-cgroup snapshot and any placement result that
assigns a path to every subsystem, the comparison records a deviation for
a subsystem exactly when that subsystem is present in the own snapshot and
its placement path does not start with the own path joined with a
`benchmark_`-prefixed component, and the comparison returns normally
exactly when no deviation is recorded. -/
theorem C1_deviation_iff_success (my : CgroupSnapshot)
    (task : PlacementResult) (ht : ∀ s, (task s).isSome) :
    (∀ s : Subsystem,
      s ∈ (comparePhase my task).deviations ↔
        ∃ own a, my s = some own ∧ task s = some a ∧
          pyStartsWith a (expectedPrefix own) = false)
    ∧ ((comparePhase my task).exitCode = none ↔
        (comparePhase my task).deviations = []) := by
  constructor
  · intro s
    rw [mem_deviations_iff]
    obtain ⟨a, ha⟩ := Option.isSome_iff_exists.mp (ht s)
    cases hmy : my s with
    | none => simp [deviates, hmy]
    | some own => simp [deviates, hmy, ha]
  · exact comparePhase_exit_none_iff my task

/-- Claim C1 witness: the theorem instantiated at the all-present sample
snapshot and the well-placed sample placement. -/
theorem C1_deviation_iff_success_witness :
    (∀ s, (taskGood s).isSome)
    ∧ ((∀ s : Subsystem,
        s ∈ (comparePhase snapAll taskGood).deviations ↔
          ∃ own a, snapAll s = some own ∧ taskGood s = some a ∧
            pyStartsWith a (expectedPrefix own) = false)
      ∧ ((comparePhase snapAll taskGood).exitCode = none ↔
          (comparePhase snapAll taskGood).deviations = [])) :=
  ⟨fun _ => rfl, C1_deviation_iff_success snapAll taskGood (fun _ => rfl)⟩

/-- Claim C2: when a required subsystem is missing from the own snapshot
the check exits with status 1 without consulting the probe executor, and
the absence of only the freezer subsystem does not trigger the early
failure. -/
theorem C2_missing_required_no_probe :
    (∀ (wait : Int) (pil : String → List Nat) (env : CgroupEnv)
        (tmp : String) (exec exec' : ProbeSpec → List String),
      requiredPresent env.snapshot = false →
        check_cgroup_availability wait pil env tmp exec =
            { probeRun := false, deviations := [], exitCode := some 1 }
          ∧ check_cgroup_availability wait pil env tmp exec =
              check_cgroup_availability wait pil env tmp exec')
    ∧ (∀ (wait : Int) (pil : String → List Nat) (env : CgroupEnv)
        (tmp : String) (exec : ProbeSpec → List String),
      env.snapshot Subsystem.freezer = none →
      requiredPresent env.snapshot = true →
        (check_cgroup_availability wait pil env tmp exec).probeRun
          = true) := by
  constructor
  · intro wait pil env tmp exec exec' h
    constructor
    · simp [check_cgroup_availability, h]
    · simp [check_cgroup_availability, h]
  · intro wait pil env tmp exec _ h
    simp [check_cgroup_availability, h, comparePhase]

/-- Claim C2 witness: the theorem instantiated at a snapshot missing the
memory subsystem, and at one missing only the freezer subsystem. -/
theorem C2_missing_required_no_probe_witness :
    (requiredPresent (envOf snapNoMemory).snapshot = false
      ∧ check_cgroup_availability 1 pil0 (envOf snapNoMemory) "t" exec0 =
          { probeRun := false, deviations := [], exitCode := some 1 })
    ∧ ((envOf snapNoFreezer).snapshot Subsystem.freezer = none
      ∧ requiredPresent (envOf snapNoFreezer).snapshot = true
      ∧ (check_cgroup_availability 1 pil0 (envOf snapNoFreezer) "t"
          exec0).probeRun = true) :=
  ⟨⟨by decide,
    (C2_missing_required_no_probe.1 1 pil0 (envOf snapNoMemory) "t" exec0
      exec0 (by decide)).1⟩,
   ⟨by decide, by decide,
    C2_missing_required_no_probe.2 1 pil0 (envOf snapNoFreezer) "t" exec0
      (by decide) (by decide)⟩⟩

/-- Claim C3: when at least one present subsystem has a placement path
lacking the expected prefix, the recorded deviations are exactly the
offending subsystems out of all four examined, no correctly placed
subsystem is reported, and the comparison exits with status 1 only after
the full walk. -/
theorem C3_exact_offender_collection (my : CgroupSnapshot)
    (task : PlacementResult) (ht : ∀ s, (task s).isSome)
    (hex : ∃ s, offending my task s = true) :
    (comparePhase my task).deviations =
        checkOrder.filter (offending my task)
    ∧ (∀ s, offending my task s = false →
        s ∉ (comparePhase my task).deviations)
    ∧ (comparePhase my task).exitCode = some 1 := by
  have hdev : ∀ s, deviates my task s = offending my task s := by
    intro s
    obtain ⟨a, ha⟩ := Option.isSome_iff_exists.mp (ht s)
    cases hmy : my s with
    | none => simp [deviates, offending, hmy]
    | some own => simp [deviates, offending, hmy, ha]
  refine ⟨?_, ?_, ?_⟩
  · rw [comparePhase_deviations]
    exact List.filter_congr (fun s _ => hdev s)
  · intro s hs
    rw [mem_deviations_iff, hdev]
    simp [hs]
  · rw [comparePhase_exitCode]
    obtain ⟨s, hs⟩ := hex
    have hany : checkOrder.any (deviates my task) = true :=
      List.any_eq_true.mpr ⟨s, mem_checkOrder s, by rw [hdev]; exact hs⟩
    simp [hany]

/-- Claim C3 witness: the theorem instantiated at the sample placement in
which only the cpuacct subsystem was relocated. -/
theorem C3_exact_offender_collection_witness :
    (∀ s, (taskBadCpuacct s).isSome)
    ∧ (∃ s, offending snapAll taskBadCpuacct s = true)
    ∧ ((comparePhase snapAll taskBadCpuacct).deviations =
          checkOrder.filter (offending snapAll taskBadCpuacct)
      ∧ (∀ s, offending snapAll taskBadCpuacct s = false →
          s ∉ (comparePhase snapAll taskBadCpuacct).deviations)
      ∧ (comparePhase snapAll taskBadCpuacct).exitCode = some 1) :=
  ⟨fun s => by cases s <;> rfl,
   ⟨Subsystem.cpuacct, by decide⟩,
   C3_exact_offender_collection snapAll taskBadCpuacct
     (fun s => by cases s <;> rfl) ⟨Subsystem.cpuacct, by decide⟩⟩

/-- Claim C4: probe output with no cgroup record for a subsystem of
interest yields an absent placement entry rather than an error, which the
comparison counts as a deviation exactly for the non-freezer subsystems. -/
theorem C4_indeterminate_placement (my : CgroupSnapshot)
    (lines : List String) (s : Subsystem) (own : String)
    (hmy : my s = some own)
    (hnone : ∀ l ∈ lines, lineRecord s l = none) :
    find_my_cgroups lines s = none
    ∧ (s ∈ (comparePhase my (find_my_cgroups lines)).deviations ↔
        s ≠ Subsystem.freezer) := by
  have hfind : find_my_cgroups lines s = none := by
    unfold find_my_cgroups
    rw [List.findSome?_eq_none_iff]
    exact hnone
  refine ⟨hfind, ?_⟩
  rw [mem_deviations_iff]
  simp [deviates, hmy, hfind]

/-- Claim C4 witness: the theorem instantiated at probe output holding
only a cpu,cpuacct record, checked for the memory subsystem. -/
theorem C4_indeterminate_placement_witness :
    snapAll Subsystem.memory = some "/a"
    ∧ (∀ l ∈ (["4:cpu,cpuacct:/x"] : List String),
        lineRecord Subsystem.memory l = none)
    ∧ (find_my_cgroups ["4:cpu,cpuacct:/x"] Subsystem.memory = none
      ∧ (Subsystem.memory ∈
          (comparePhase snapAll
            (find_my_cgroups ["4:cpu,cpuacct:/x"])).deviations ↔
          Subsystem.memory ≠ Subsystem.freezer)) :=
  ⟨rfl, by decide,
   C4_indeterminate_placement snapAll ["4:cpu,cpuacct:/x"]
     Subsystem.memory "/a" rfl (by decide)⟩

/-- Claim C5 counterexample: the line consisting of a space and an `a`
survives the filter, but is kept in stripped form rather than unchanged. -/
theorem C5_keeps_stripped_counterexample :
    keepStripped 1 (pyStrip " a") = true
    ∧ filterLines 1 [" a"] ≠ ([" a"] : List String) := by
  decide

/-- Claim C5 (amended): the filter removes exactly the lines whose
stripped form is empty, equal to the echoed shell command for the given
wait value, or composed solely of dashes, and keeps the stripped forms of
all other lines in their original order. -/
theorem C5_filter_characterization (wait : Int) (lines : List String) :
    filterLines wait lines =
      (lines.map pyStrip).filter
        (fun l =>
          !(l = "" || l = echoedCommand wait
            || l.data.all (fun c => c = '-'))) := by
  rw [filterLines_eq]
  apply List.filter_congr
  intro l _
  simp [keepStripped, Bool.and_assoc]

/-- Claim C6: on identical inputs the isolated mode returns exactly the
outcome of the direct mode, and a fatal direct-mode termination surfaces
in isolated mode as the same raised `SystemExit 1`. -/
theorem C6_isolated_equals_direct (wait : Int) (pil : String → List Nat)
    (env : CgroupEnv) (tmp : String) (exec : ProbeSpec → List String) :
    check_cgroup_availability_in_thread
        ((check_cgroup_availability wait pil env tmp exec).toExcept)
      = (check_cgroup_availability wait pil env tmp exec).toExcept
    ∧ ((check_cgroup_availability wait pil env tmp exec).exitCode = some 1 →
        check_cgroup_availability_in_thread
            ((check_cgroup_availability wait pil env tmp exec).toExcept)
          = Except.error (PyBaseException.systemExit 1)) := by
  constructor
  · exact thread_roundtrip _
  · intro h
    rw [thread_roundtrip]
    simp [CheckResult.toExcept, h]

/-- Claim C6 witness: the theorem instantiated at an environment whose
snapshot lacks the memory subsystem, where the check terminates fatally. -/
theorem C6_isolated_equals_direct_witness :
    (check_cgroup_availability 1 pil0 (envOf snapNoMemory) "t"
        exec0).exitCode = some 1
    ∧ check_cgroup_availability_in_thread
        ((check_cgroup_availability 1 pil0 (envOf snapNoMemory) "t"
          exec0).toExcept)
      = (check_cgroup_availability 1 pil0 (envOf snapNoMemory) "t"
          exec0).toExcept
    ∧ check_cgroup_availability_in_thread
        ((check_cgroup_availability 1 pil0 (envOf snapNoMemory) "t"
          exec0).toExcept)
      = Except.error (PyBaseException.systemExit 1) :=
  ⟨by decide,
   (C6_isolated_equals_direct 1 pil0 (envOf snapNoMemory) "t" exec0).1,
   (C6_isolated_equals_direct 1 pil0 (envOf snapNoMemory) "t" exec0).2
     (by decide)⟩

/-- Claim C7: the probe specification handed to the executor runs the
sleep-then-introspect shell command, carries a 1 MiB memory limit, the
cores parsed from the own cpuset `cpus` attribute, and the caller's
allowed memory banks; when the required subsystems are present the check
invokes the executor on exactly this specification. -/
theorem C7_probe_spec_fields (wait : Int) (pil : String → List Nat)
    (env : CgroupEnv) (tmp : String) :
    (buildProbeSpec wait pil env tmp).args =
        ["sh", "-c", "sleep " ++ toString wait ++ "; cat /proc/self/cgroup"]
    ∧ (buildProbeSpec wait pil env tmp).memlimit = 1048576
    ∧ (buildProbeSpec wait pil env tmp).cores =
        pil (env.getValue Subsystem.cpuset "cpus")
    ∧ (buildProbeSpec wait pil env tmp).memoryNodes = env.allowedMemoryBanks
    ∧ (∀ exec : ProbeSpec → List String,
        requiredPresent env.snapshot = true →
          check_cgroup_availability wait pil env tmp exec =
            comparePhase env.snapshot
              (find_my_cgroups
                (filterLines wait
                  (exec (buildProbeSpec wait pil env tmp))))) := by
  refine ⟨rfl, rfl, rfl, rfl, ?_⟩
  intro exec h
  simp [check_cgroup_availability, h]

/-- Claim C7 witness: the theorem instantiated at the all-present sample
environment with a silent executor. -/
theorem C7_probe_spec_fields_witness :
    requiredPresent (envOf snapAll).snapshot = true
    ∧ (buildProbeSpec 1 pil0 (envOf snapAll) "t").memlimit = 1048576
    ∧ check_cgroup_availability 1 pil0 (envOf snapAll) "t" exec0 =
        comparePhase (envOf snapAll).snapshot
          (find_my_cgroups
            (filterLines 1 (exec0 (buildProbeSpec 1 pil0 (envOf snapAll)
              "t")))) :=
  ⟨by decide,
   (C7_probe_spec_fields 1 pil0 (envOf snapAll) "t").2.1,
   (C7_probe_spec_fields 1 pil0 (envOf snapAll) "t").2.2.2.2 exec0
     (by decide)⟩

/-- Claim C8 counterexample: the command line `--wait -5` is accepted and
the check function is invoked with the negative value `-5`. -/
theorem C8_negative_wait_counterexample :
    mainInvokedWait ["check-cgroups", "--wait", "-5"] = some (-5)
    ∧ ((-5 : Int) < 0) := by
  decide

/-- Claim C8 (amended): `--wait` parses to whatever integer the `int`
conversion yields, with default 1 when the option is absent, and the check
is invoked with exactly the parsed value, negative values included. -/
theorem C8_wait_parsing :
    mainInvokedWait ["check-cgroups"] = some 1
    ∧ (∀ (v : String) (n : Int) (rest : List String), pyInt v = some n →
        parseArgs ("--wait" :: v :: rest) =
          parseArgsFrom { wait := n, noThread := false } rest)
    ∧ (∀ (argv : List String) (opts : Options),
        parseArgs argv.tail = some opts →
          mainInvokedWait argv = some opts.wait)
    ∧ mainInvokedWait ["check-cgroups", "--wait", "-5"] = some (-5) := by
  refine ⟨rfl, ?_, ?_, by decide⟩
  · intro v n rest h
    simp [parseArgs, parseArgsFrom, h]
  · intro argv opts h
    simp [mainInvokedWait, h]

/-- Claim C8 witness: the theorem instantiated at the concrete command
line `--wait 7`. -/
theorem C8_wait_parsing_witness :
    pyInt "7" = some 7
    ∧ parseArgs ["--wait", "7"] =
        parseArgsFrom { wait := 7, noThread := false } []
    ∧ parseArgs ["--wait", "7"] = some { wait := 7, noThread := false }
    ∧ mainInvokedWait ["check-cgroups", "--wait", "7"] = some 7 :=
  ⟨by decide,
   C8_wait_parsing.2.1 "7" 7 [] (by decide),
   by decide,
   C8_wait_parsing.2.2.1 ["check-cgroups", "--wait", "7"]
     { wait := 7, noThread := false } (by decide)⟩

/-- Claim C9: the placement comparison is a plain character-prefix test
against the own path joined with `benchmark_`: a present subsystem passes
exactly when its actual path decomposes as that prefix followed by any
character suffix, so the prefix itself passes and so does an extension
without a path separator. -/
theorem C9_plain_prefix_test :
    (∀ (my : CgroupSnapshot) (task : PlacementResult) (s : Subsystem)
        (own a : String), my s = some own → task s = some a →
        (deviates my task s = false ↔
          ∃ rest, a.data = (expectedPrefix own).data ++ rest))
    ∧ deviates (fun _ => some "/a") (fun _ => some "/a/benchmark_")
        Subsystem.cpuacct = false
    ∧ deviates (fun _ => some "/a")
        (fun _ => some "/a/benchmark_anything") Subsystem.cpuacct
        = false := by
  refine ⟨?_, by decide, by decide⟩
  intro my task s own a hmy hta
  simp only [deviates, hmy, hta, Bool.not_eq_false', pyStartsWith]
  exact charPrefix_iff (expectedPrefix own).data a.data

/-- Claim C9 witness: the theorem instantiated at the sample snapshot and
well-placed sample placement. -/
theorem C9_plain_prefix_test_witness :
    snapAll Subsystem.cpuacct = some "/a"
    ∧ taskGood Subsystem.cpuacct = some "/a/benchmark_1/x"
    ∧ (deviates snapAll taskGood Subsystem.cpuacct = false ↔
        ∃ rest, ("/a/benchmark_1/x" : String).data =
          (expectedPrefix "/a").data ++ rest) :=
  ⟨rfl, rfl,
   C9_plain_prefix_test.1 snapAll taskGood Subsystem.cpuacct "/a"
     "/a/benchmark_1/x" rfl rfl⟩

/-- Claim C10: the worker body's outcome is caught and stored in the error
slot, which stays empty exactly when the body returned normally, the
wrapper re-raises exactly the stored exception, and `SystemExit` and
`KeyboardInterrupt` are caught like any other exception. -/
theorem C10_worker_catches_and_reraises :
    (∀ body : Except PyBaseException Unit,
        (threadErrorSlot body = none ↔ body = Except.ok ())
        ∧ check_cgroup_availability_in_thread body = body)
    ∧ threadErrorSlot (Except.error (PyBaseException.systemExit 1)) =
        some (PyBaseException.systemExit 1)
    ∧ threadErrorSlot (Except.error PyBaseException.keyboardInterrupt) =
        some PyBaseException.keyboardInterrupt := by
  refine ⟨?_, rfl, rfl⟩
  intro body
  cases body with
  | ok u => cases u; exact ⟨by simp [threadErrorSlot], thread_roundtrip _⟩
  | error e =>
    refine ⟨?_, thread_roundtrip _⟩
    simp [threadErrorSlot]

end CheckCgroups
